import Mathlib

/-!
Verification development for the grdp RDP client (github.com/nakagami/grdp).

Bytes are modelled as `Nat` values (each intended to lie below 256) and byte
strings as `List Nat`.  Machine-integer truncation in the Go source is made
explicit with `% 2^w`.  The cryptographic primitives the source obtains from
the Go standard library (crypto/md5, crypto/sha1, crypto/rc4) are embedded as
the standard MD5, SHA-1 and RC4 algorithms, executable over byte lists.
-/

namespace Grdp

/-- Modelled from the spec: `core.WriteUInt16LE` (package `core` is not part
of the sources here); §6 of the spec fixes multi-byte integers inside RDP
payloads as little-endian.  Serializes the low 16 bits of `n`. -/
def le16 (n : Nat) : List Nat := [n % 256, n / 256 % 256]

/-- Modelled from the spec: `core.WriteUInt16BE`; §6 of the spec fixes
multi-byte integers inside TPKT/X.224 headers as big-endian.  Serializes the
low 16 bits of `n`, high byte first. -/
def be16 (n : Nat) : List Nat := [n / 256 % 256, n % 256]

/-- Modelled from the spec: `core.WriteUInt32LE`; little-endian 32-bit
serialization. -/
def le32 (n : Nat) : List Nat :=
  [n % 256, n / 256 % 256, n / 65536 % 256, n / 16777216 % 256]

/-- Big-endian 32-bit serialization (used for SHA-1 output words). -/
def be32 (n : Nat) : List Nat :=
  [n / 16777216 % 256, n / 65536 % 256, n / 256 % 256, n % 256]

/-- Little-endian 64-bit serialization (MD5 length padding). -/
def le64 (n : Nat) : List Nat :=
  le32 (n % 4294967296) ++ le32 (n / 4294967296 % 4294967296)

/-- Big-endian 64-bit serialization (SHA-1 length padding). -/
def be64 (n : Nat) : List Nat :=
  be32 (n / 4294967296 % 4294967296) ++ be32 (n % 4294967296)

/-- Truncation to a 32-bit word. -/
def w32 (x : Nat) : Nat := x % 4294967296

/-- Left rotation of a 32-bit word by `n` bits. -/
def rotl32 (x n : Nat) : Nat := ((x <<< n) + (x >>> (32 - n))) % 4294967296

/-- Bitwise complement of a 32-bit word. -/
def not32 (x : Nat) : Nat := x ^^^ 4294967295

/-- Little-endian 32-bit word at word index `j` of a block. -/
def word32LEAt (b : List Nat) (j : Nat) : Nat :=
  b.getD (4 * j) 0 + b.getD (4 * j + 1) 0 * 256 +
    b.getD (4 * j + 2) 0 * 65536 + b.getD (4 * j + 3) 0 * 16777216

/-- Big-endian 32-bit word at word index `j` of a block. -/
def word32BEAt (b : List Nat) (j : Nat) : Nat :=
  b.getD (4 * j) 0 * 16777216 + b.getD (4 * j + 1) 0 * 65536 +
    b.getD (4 * j + 2) 0 * 256 + b.getD (4 * j + 3) 0

/-- The 64 MD5 sine-derived constants (RFC 1321). -/
def md5K : List Nat :=
  [0xd76aa478, 0xe8c7b756, 0x242070db, 0xc1bdceee,
   0xf57c0faf, 0x4787c62a, 0xa8304613, 0xfd469501,
   0x698098d8, 0x8b44f7af, 0xffff5bb1, 0x895cd7be,
   0x6b901122, 0xfd987193, 0xa679438e, 0x49b40821,
   0xf61e2562, 0xc040b340, 0x265e5a51, 0xe9b6c7aa,
   0xd62f105d, 0x02441453, 0xd8a1e681, 0xe7d3fbc8,
   0x21e1cde6, 0xc33707d6, 0xf4d50d87, 0x455a14ed,
   0xa9e3e905, 0xfcefa3f8, 0x676f02d9, 0x8d2a4c8a,
   0xfffa3942, 0x8771f681, 0x6d9d6122, 0xfde5380c,
   0xa4beea44, 0x4bdecfa9, 0xf6bb4b60, 0xbebfbc70,
   0x289b7ec6, 0xeaa127fa, 0xd4ef3085, 0x04881d05,
   0xd9d4d039, 0xe6db99e5, 0x1fa27cf8, 0xc4ac5665,
   0xf4292244, 0x432aff97, 0xab9423a7, 0xfc93a039,
   0x655b59c3, 0x8f0ccc92, 0xffeff47d, 0x85845dd1,
   0x6fa87e4f, 0xfe2ce6e0, 0xa3014314, 0x4e0811a1,
   0xf7537e82, 0xbd3af235, 0x2ad7d2bb, 0xeb86d391]

/-- The 64 MD5 per-round left-rotation amounts (RFC 1321). -/
def md5S : List Nat :=
  [7, 12, 17, 22, 7, 12, 17, 22, 7, 12, 17, 22, 7, 12, 17, 22,
   5, 9, 14, 20, 5, 9, 14, 20, 5, 9, 14, 20, 5, 9, 14, 20,
   4, 11, 16, 23, 4, 11, 16, 23, 4, 11, 16, 23, 4, 11, 16, 23,
   6, 10, 15, 21, 6, 10, 15, 21, 6, 10, 15, 21, 6, 10, 15, 21]

/-- One MD5 compression step on state `(a, b, c, d)` with a 64-byte block. -/
def md5Block (st : Nat × Nat × Nat × Nat) (block : List Nat) :
    Nat × Nat × Nat × Nat :=
  let step := fun (p : Nat × Nat × Nat × Nat) (i : Nat) =>
    let a := p.1
    let b := p.2.1
    let c := p.2.2.1
    let d := p.2.2.2
    let f :=
      if i < 16 then (b &&& c) ||| (not32 b &&& d)
      else if i < 32 then (d &&& b) ||| (not32 d &&& c)
      else if i < 48 then b ^^^ c ^^^ d
      else c ^^^ (b ||| not32 d)
    let g :=
      if i < 16 then i
      else if i < 32 then (5 * i + 1) % 16
      else if i < 48 then (3 * i + 5) % 16
      else 7 * i % 16
    let f := (f + a + md5K.getD i 0 + word32LEAt block g) % 4294967296
    (d, (b + rotl32 f (md5S.getD i 0)) % 4294967296, b, c)
  let r := (List.range 64).foldl step st
  ((st.1 + r.1) % 4294967296, (st.2.1 + r.2.1) % 4294967296,
   (st.2.2.1 + r.2.2.1) % 4294967296, (st.2.2.2 + r.2.2.2) % 4294967296)

/-- Merkle–Damgård padding shared by MD5 and SHA-1: a 0x80 byte, zeros up to
56 mod 64, then the 8-byte encoded bit length. -/
def mdPad (m : List Nat) (lenBytes : List Nat) : List Nat :=
  m ++ [0x80] ++ List.replicate ((119 - m.length % 64) % 64) 0 ++ lenBytes

/-- The MD5 hash of a byte sequence, as computed by Go's crypto/md5, which
the source uses for key derivation and MAC computation. -/
def md5Hash (m : List Nat) : List Nat :=
  let padded := mdPad m (le64 (8 * m.length))
  let r := (List.range (padded.length / 64)).foldl
    (fun st i => md5Block st ((padded.drop (64 * i)).take 64))
    (0x67452301, 0xefcdab89, 0x98badcfe, 0x10325476)
  le32 r.1 ++ le32 r.2.1 ++ le32 r.2.2.1 ++ le32 r.2.2.2

/-- One SHA-1 compression step on state `(a, b, c, d, e)` with a 64-byte
block. -/
def sha1Block (st : Nat × Nat × Nat × Nat × Nat) (block : List Nat) :
    Nat × Nat × Nat × Nat × Nat :=
  let w0 := (List.range 16).map (word32BEAt block)
  let w := (List.range 64).foldl
    (fun w i =>
      w ++ [rotl32 (w.getD (i + 13) 0 ^^^ w.getD (i + 8) 0 ^^^
        w.getD (i + 2) 0 ^^^ w.getD i 0) 1]) w0
  let step := fun (p : Nat × Nat × Nat × Nat × Nat) (i : Nat) =>
    let a := p.1
    let b := p.2.1
    let c := p.2.2.1
    let d := p.2.2.2.1
    let e := p.2.2.2.2
    let f :=
      if i < 20 then (b &&& c) ||| (not32 b &&& d)
      else if i < 40 then b ^^^ c ^^^ d
      else if i < 60 then (b &&& c) ||| (b &&& d) ||| (c &&& d)
      else b ^^^ c ^^^ d
    let k :=
      if i < 20 then 0x5A827999
      else if i < 40 then 0x6ED9EBA1
      else if i < 60 then 0x8F1BBCDC
      else 0xCA62C1D6
    let t := (rotl32 a 5 + f + e + k + w.getD i 0) % 4294967296
    (t, a, rotl32 b 30, c, d)
  let r := (List.range 80).foldl step st
  ((st.1 + r.1) % 4294967296, (st.2.1 + r.2.1) % 4294967296,
   (st.2.2.1 + r.2.2.1) % 4294967296, (st.2.2.2.1 + r.2.2.2.1) % 4294967296,
   (st.2.2.2.2 + r.2.2.2.2) % 4294967296)

/-- The SHA-1 hash of a byte sequence, as computed by Go's crypto/sha1,
which the source uses inside the salted-hash and MAC constructions. -/
def sha1Hash (m : List Nat) : List Nat :=
  let padded := mdPad m (be64 (8 * m.length))
  let r := (List.range (padded.length / 64)).foldl
    (fun st i => sha1Block st ((padded.drop (64 * i)).take 64))
    (0x67452301, 0xEFCDAB89, 0x98BADCFE, 0x10325476, 0xC3D2E1F0)
  be32 r.1 ++ be32 r.2.1 ++ be32 r.2.2.1 ++ be32 r.2.2.2.1 ++ be32 r.2.2.2.2

/-- Swap the entries at positions `i` and `j` of a list. -/
def listSwap (S : List Nat) (i j : Nat) : List Nat :=
  (S.set i (S.getD j 0)).set j (S.getD i 0)

/-- RC4 key-scheduling algorithm, as in Go's crypto/rc4 `NewCipher`. -/
def rc4Ksa (key : List Nat) : List Nat :=
  ((List.range 256).foldl
    (fun (p : List Nat × Nat) i =>
      let j := (p.2 + p.1.getD i 0 + key.getD (i % key.length) 0) % 256
      (listSwap p.1 i j, j))
    (List.range 256, 0)).1

/-- State of an RC4 stream cipher: permutation table and the two indices. -/
structure Rc4 where
  S : List Nat
  i : Nat
  j : Nat
deriving DecidableEq, Repr

/-- A fresh RC4 cipher for `key`, as Go's `rc4.NewCipher`. -/
def rc4New (key : List Nat) : Rc4 := ⟨rc4Ksa key, 0, 0⟩

/-- One step of the RC4 pseudo-random generation algorithm: the advanced
cipher state and the next keystream byte. -/
def rc4Next (c : Rc4) : Rc4 × Nat :=
  let i := (c.i + 1) % 256
  let j := (c.j + c.S.getD i 0) % 256
  let S := listSwap c.S i j
  (⟨S, i, j⟩, S.getD ((S.getD i 0 + S.getD j 0) % 256) 0)

/-- Go's `rc4.Cipher.XORKeyStream`: XOR `src` with the keystream, advancing
the cipher state. -/
def rc4Xor (c : Rc4) (src : List Nat) : Rc4 × List Nat :=
  src.foldl
    (fun (p : Rc4 × List Nat) b =>
      let n := rc4Next p.1
      (n.1, p.2 ++ [b ^^^ n.2]))
    (c, [])

/-! Security-flag constants from protocol/sec/sec.go. -/

/-- SecurityFlag `EXCHANGE_PKT` from sec.go. -/
def EXCHANGE_PKT : Nat := 0x0001

/-- SecurityFlag `ENCRYPT` from sec.go. -/
def ENCRYPT : Nat := 0x0008

/-- SecurityFlag `INFO_PKT` from sec.go. -/
def INFO_PKT : Nat := 0x0040

/-- SecurityFlag `SECURE_CHECKSUM` from sec.go. -/
def SECURE_CHECKSUM : Nat := 0x0800

/-- Modelled from the spec: `gcc.ENCRYPTION_FLAG_40BIT` (package
`t125/gcc` is not part of the sources here); the 40-bit encryption-method
flag of MS-RDPBCGR, value 0x00000001. -/
def ENCRYPTION_FLAG_40BIT : Nat := 0x00000001

/-- Modelled from the spec: `gcc.ENCRYPTION_FLAG_128BIT`, the 128-bit
encryption-method flag of MS-RDPBCGR, value 0x00000002. -/
def ENCRYPTION_FLAG_128BIT : Nat := 0x00000002

/-- Modelled from the spec: `gcc.ENCRYPTION_FLAG_56BIT`, the 56-bit
encryption-method flag of MS-RDPBCGR, value 0x00000008. -/
def ENCRYPTION_FLAG_56BIT : Nat := 0x00000008

/-- `macData` from sec.go: MD5(macSaltKey || 0x5c×48 || SHA1(macSaltKey ||
0x36×40 || len_le32(data) || data)).  The incremental `Write` calls of the
Go digests are embedded as one concatenation. -/
def macData (macSaltKey data : List Nat) : List Nat :=
  md5Hash (macSaltKey ++ List.replicate 48 0x5c ++
    sha1Hash (macSaltKey ++ List.replicate 40 0x36 ++
      le32 (data.length % 4294967296) ++ data))

/-- `gen40bits` from sec.go: `append([]byte("\xd1\x26\x9e"), data[3:8]...)`. -/
def gen40bits (data : List Nat) : List Nat :=
  [0xd1, 0x26, 0x9e] ++ ((data.drop 3).take 5)

/-- `gen56bits` from sec.go: `append([]byte("\xd1"), data[1:8]...)`. -/
def gen56bits (data : List Nat) : List Nat :=
  [0xd1] ++ ((data.drop 1).take 7)

/-- `saltedHash` from sec.go:
MD5(salt[:48] || SHA1(inputData || salt[:48] || salt1 || salt2))[:16]. -/
def saltedHash (inputData salt salt1 salt2 : List Nat) : List Nat :=
  (md5Hash (salt.take 48 ++
    sha1Hash (inputData ++ salt.take 48 ++ salt1 ++ salt2))).take 16

/-- `finalHash` from sec.go: MD5(key || random1 || random2). -/
def finalHash (key random1 random2 : List Nat) : List Nat :=
  md5Hash (key ++ random1 ++ random2)

/-- `masterSecret` from sec.go: SH("A") || SH("BB") || SH("CCC") with
SH(salt) = saltedHash(salt, secret, random1, random2). -/
def masterSecret (secret random1 random2 : List Nat) : List Nat :=
  saltedHash [0x41] secret random1 random2 ++
    saltedHash [0x42, 0x42] secret random1 random2 ++
    saltedHash [0x43, 0x43, 0x43] secret random1 random2

/-- `sessionKeyBlob` from sec.go: SH("X") || SH("YY") || SH("ZZZ"). -/
def sessionKeyBlob (secret random1 random2 : List Nat) : List Nat :=
  saltedHash [0x58] secret random1 random2 ++
    saltedHash [0x59, 0x59] secret random1 random2 ++
    saltedHash [0x5a, 0x5a, 0x5a] secret random1 random2

/-- `generateKeys` from sec.go: derives (macKey, initialDecryptKey,
initialEncryptKey) from the client and server randoms and the negotiated
encryption method. -/
def generateKeys (clientRandom serverRandom : List Nat) (method : Nat) :
    List Nat × List Nat × List Nat :=
  let preMasterHash := clientRandom.take 24 ++ serverRandom.take 24
  let masterHash := masterSecret preMasterHash clientRandom serverRandom
  let sessionKey := sessionKeyBlob masterHash clientRandom serverRandom
  let macKey128 := sessionKey.take 16
  let initialFirstKey128 :=
    finalHash ((sessionKey.drop 16).take 16) clientRandom serverRandom
  let initialSecondKey128 :=
    finalHash ((sessionKey.drop 32).take 16) clientRandom serverRandom
  if method = ENCRYPTION_FLAG_40BIT then
    (gen40bits macKey128, gen40bits initialFirstKey128,
     gen40bits initialSecondKey128)
  else if method = ENCRYPTION_FLAG_56BIT then
    (gen56bits macKey128, gen56bits initialFirstKey128,
     gen56bits initialSecondKey128)
  else
    (macKey128, initialFirstKey128, initialSecondKey128)

/-- Spec-side definition, following the claim's words: the session-key blob
built from the master secret via the salted-hash construction, with
`pre_master = client_random[:24] || server_random[:24]`. -/
def specSessionBlob (clientRandom serverRandom : List Nat) : List Nat :=
  sessionKeyBlob
    (masterSecret (clientRandom.take 24 ++ serverRandom.take 24)
      clientRandom serverRandom)
    clientRandom serverRandom

/-- Spec-side definition: `mac_key = session[0:16]`. -/
def specMacKey (clientRandom serverRandom : List Nat) : List Nat :=
  (specSessionBlob clientRandom serverRandom).take 16

/-- Spec-side definition:
`decrypt_key = MD5(session[16:32] || client_random || server_random)`. -/
def specDecryptKey (clientRandom serverRandom : List Nat) : List Nat :=
  md5Hash (((specSessionBlob clientRandom serverRandom).drop 16).take 16 ++
    clientRandom ++ serverRandom)

/-- Spec-side definition:
`encrypt_key = MD5(session[32:48] || client_random || server_random)`. -/
def specEncryptKey (clientRandom serverRandom : List Nat) : List Nat :=
  md5Hash (((specSessionBlob clientRandom serverRandom).drop 32).take 16 ++
    clientRandom ++ serverRandom)

/-- The mutable fields of the `SEC` layer from sec.go that the send and
receive paths touch. -/
structure SecState where
  enableEncryption : Bool
  enableSecureCheckSum : Bool
  nbEncryptedPacket : Nat
  nbDecryptedPacket : Nat
  currentDecrytKey : List Nat
  currentEncryptKey : List Nat
  decryptRc4 : Option Rc4
  encryptRc4 : Option Rc4
  macKey : List Nat
deriving DecidableEq, Repr

/-- The encrypt-side RC4 cipher the next packet will use: the cached stream,
or a fresh cipher for `currentEncryptKey` when none exists yet (the
`encryptRc4 == nil` check in sec.go). -/
def currentEncCipher (s : SecState) : Rc4 :=
  match s.encryptRc4 with
  | none => rc4New s.currentEncryptKey
  | some c => c

/-- The decrypt-side RC4 cipher, analogously (`decryptRc4 == nil`). -/
def currentDecCipher (s : SecState) : Rc4 :=
  match s.decryptRc4 with
  | none => rc4New s.currentDecrytKey
  | some c => c

/-- `SEC.writeEncryptedPayload` from sec.go.  The
`if s.nbEncryptedPacket == 4096 \x7b \x7d` branch of the source is empty and
is therefore embedded as a no-op; the `checkSum` branch returns an empty
payload without touching the state, exactly as the source does. -/
def writeEncryptedPayload (s : SecState) (data : List Nat) (checkSum : Bool) :
    SecState × List Nat :=
  if checkSum then (s, [])
  else
    let s := { s with nbEncryptedPacket := s.nbEncryptedPacket + 1 }
    let sign := (macData s.macKey data).take 8
    let c := currentEncCipher s
    let r := rc4Xor c data
    ({ s with encryptRc4 := some r.1 }, sign ++ r.2)

/-- `SEC.readEncryptedPayload` from sec.go: strip the 8-byte signature and
RC4-decrypt the rest with the current decrypt stream. -/
def readEncryptedPayload (s : SecState) (data : List Nat) (_checkSum : Bool) :
    SecState × List Nat :=
  let encryptedPayload := data.drop 8
  let c := currentDecCipher s
  let s := { s with nbDecryptedPacket := s.nbDecryptedPacket + 1 }
  let r := rc4Xor c encryptedPayload
  ({ s with decryptRc4 := some r.1 }, r.2)

/-- `SEC.encryt` from sec.go (name as in the source): prepend the 2-byte
little-endian flag word and a zero flagHi word; when ENCRYPT is set the
payload is first passed through `writeEncryptedPayload`. -/
def encryt (s : SecState) (flag : Nat) (b : List Nat) : SecState × List Nat :=
  let r :=
    if flag &&& ENCRYPT ≠ 0 then
      writeEncryptedPayload s b (flag &&& SECURE_CHECKSUM ≠ 0)
    else (s, b)
  (r.1, le16 flag ++ le16 0 ++ r.2)

/-- `SEC.encrytData` from sec.go. -/
def encrytData (s : SecState) (b : List Nat) : SecState × List Nat :=
  if s.enableEncryption then
    let flag := ENCRYPT ||| (if s.enableSecureCheckSum then SECURE_CHECKSUM else 0)
    encryt s flag b
  else (s, b)

/-- `SEC.Write` from sec.go: the bytes handed to the transport, with the
updated security state. -/
def secWrite (s : SecState) (b : List Nat) : SecState × List Nat :=
  if s.enableEncryption then encrytData s b else (s, b)

/-- `SEC.decrytData` from sec.go (name as in the source): when encryption is
disabled the input is returned unchanged; otherwise the 4-byte security
header is stripped and, when its ENCRYPT bit is set, the payload is
decrypted. -/
def decrytData (s : SecState) (b : List Nat) : SecState × List Nat :=
  if s.enableEncryption then
    let securityFlag := b.getD 0 0 + b.getD 1 0 * 256
    let data := b.drop 4
    if securityFlag &&& ENCRYPT ≠ 0 then
      readEncryptedPayload s data (securityFlag &&& SECURE_CHECKSUM ≠ 0)
    else (s, data)
  else (s, b)

/-- Iterated encrypted sends: the security state after `n` successive
`writeEncryptedPayload` calls on plaintext `b`. -/
def secWriteN (s : SecState) (b : List Nat) : Nat → SecState
  | 0 => s
  | n + 1 => (writeEncryptedPayload (secWriteN s b n) b false).1

/-! The client connect / client-random exchange of sec.go, as an action
trace.  Entropy (`core.Random`) and RSA encryption
(`rsa.EncryptPKCS1v15` under the server certificate's public key) are
external effects and are passed in as functions. -/

/-- Observable actions of the sec client during connect. -/
inductive SecAction where
  | genRandom (n : Nat)
  | sendFlagged (flag : Nat) (payload : List Nat)
deriving DecidableEq, Repr

/-- `ClientSecurityExchangePDU.serialize` from sec.go, with
`Length = len(EncryptedClientRandom) + 8` and 8 padding zero bytes, as set
up by `sendClientRandom`. -/
def clientSecurityExchangeSerialize (encryptedClientRandom : List Nat) :
    List Nat :=
  le32 (encryptedClientRandom.length + 8) ++ encryptedClientRandom ++
    List.replicate 8 0

/-- `Client.sendClientRandom` from sec.go: generate a 32-byte client random,
derive the keys, RSA-encrypt the byte-reversed random, and send the
exchange PDU flagged EXCHANGE_PKT.  `randf n` models `core.Random(n)` and
`rsaEncrypt` models `rsa.EncryptPKCS1v15` under the server public key;
`core.Reverse` is `List.reverse`.  Returns the derived
(macKey, initialDecrytKey, initialEncryptKey) and the action trace. -/
def sendClientRandomTrace (randf : Nat → List Nat)
    (rsaEncrypt : List Nat → List Nat) (serverRandom : List Nat)
    (method : Nat) : (List Nat × List Nat × List Nat) × List SecAction :=
  let clientRandom := randf 32
  let keys := generateKeys clientRandom serverRandom method
  let encryptedClientRandom := (rsaEncrypt clientRandom.reverse).reverse
  (keys,
   [SecAction.genRandom 32,
    SecAction.sendFlagged EXCHANGE_PKT
      (clientSecurityExchangeSerialize encryptedClientRandom)])

/-- `Client.sendInfoPkt` from sec.go: the Info PDU is flagged INFO_PKT,
with ENCRYPT added once encryption is enabled; `info` stands for the
serialized RDPInfo. -/
def sendInfoPktTrace (enableEncryption : Bool) (info : List Nat) :
    List SecAction :=
  [SecAction.sendFlagged
    (INFO_PKT ||| (if enableEncryption then ENCRYPT else 0)) info]

/-- `Client.connect` from sec.go: standard encryption is enabled exactly
when the server-selected protocol is 0 (RDP); only then is the client
random generated and sent, followed in all cases by the Info PDU.
Returns the `enableEncryption` flag and the action trace. -/
def clientConnectTrace (serverSelectedProtocol : Nat)
    (randf : Nat → List Nat) (rsaEncrypt : List Nat → List Nat)
    (serverRandom : List Nat) (method : Nat) (info : List Nat) :
    Bool × List SecAction :=
  let enableEncryption := serverSelectedProtocol == 0
  (enableEncryption,
   (if enableEncryption then
      (sendClientRandomTrace randf rsaEncrypt serverRandom method).2
    else []) ++ sendInfoPktTrace enableEncryption info)

/-- Does a sec action generate entropy? -/
def SecAction.isGenRandom : SecAction → Bool
  | .genRandom _ => true
  | _ => false

/-- Is a sec action a send flagged EXCHANGE_PKT? -/
def SecAction.isExchangeSend : SecAction → Bool
  | .sendFlagged flag _ => flag == EXCHANGE_PKT
  | _ => false

/-! TPKT layer (protocol/tpkt/tpkt.go). -/

/-- `TPKT.Write` from tpkt.go: one byte `FASTPATH_ACTION_X224` (0x03), one
zero byte, the big-endian 16-bit total length `len(data)+4` (the Go
`uint16` cast made explicit), then the payload. -/
def tpktWrite (data : List Nat) : List Nat :=
  3 :: 0 :: be16 ((data.length + 4) % 65536) ++ data

/-- What `TPKT.recvHeader` decides to do after the first two bytes of a
frame: wait for the 2 remaining slow-path header bytes, read a short
fast-path payload, or wait for the extended fast-path length byte. -/
inductive RecvDecision where
  | x224
  | fpShort (secFlag : Nat) (payloadLen : Int)
  | fpExtendedWait (secFlag : Nat) (lastShortLength : Nat)
deriving DecidableEq, Repr

/-- `TPKT.recvHeader` from tpkt.go on the two bytes read: byte 0x03 routes
to the X.224 slow path; otherwise bits 6-7 of the first byte are the
security flags and the second byte is a length whose high bit selects the
extended form.  Lengths are `int` in Go, hence `Int` here. -/
def tpktRecvHeader (b0 b1 : Nat) : RecvDecision :=
  if b0 = 3 then RecvDecision.x224
  else
    let secFlag := (b0 >>> 6) &&& 3
    if b1 &&& 0x80 ≠ 0 then RecvDecision.fpExtendedWait secFlag b1
    else RecvDecision.fpShort secFlag ((b1 : Int) - 2)

/-- `TPKT.recvExtendedFastPathHeader` from tpkt.go: with the stored short
length and the extra byte, the payload read size is
`((lastShortLength & ^0x80) << 8) + rightPart - 3`.  Clearing bit 7 of a
natural number is subtracting `lastShortLength &&& 0x80`. -/
def tpktRecvExtendedFastPathHeader (lastShortLength rightPart : Nat) : Int :=
  let leftPart := lastShortLength - (lastShortLength &&& 0x80)
  ((leftPart <<< 8) + rightPart : Int) - 3

/-! X.224 layer (the x224 package). -/

/-- Observable actions of the X.224 connection-confirm handler. -/
inductive X224Action where
  | close
  | emitError
  | listenData
  | startTLS
  | startNLA
  | emitConnect (proto : Nat)
deriving DecidableEq, Repr

/-- `struc.Pack` of the constant `DataHeader \x7b2, TPDU_DATA, 0x80\x7d`
from the x224 package: bytes 02 F0 80. -/
def x224DataHeader : List Nat := [0x02, 0xF0, 0x80]

/-- `X224.Write` from the x224 package: the packed 3-byte data header
followed by the payload. -/
def x224Write (b : List Nat) : List Nat := x224DataHeader ++ b

/-- `X224.recvData` from the x224 package: the x224 header takes 3 bytes,
the rest is emitted as data. -/
def x224RecvData (s : List Nat) : List Nat := s.drop 3

/-- The bytes of an ASCII string. -/
def strBytes (s : String) : List Nat := s.toList.map Char.toNat

/-- `struc.Pack` of a `Negotiation` record from the x224 package: a type
byte, a flag byte, the little-endian 16-bit length and the little-endian
32-bit result. -/
def negotiationSerialize (t fl length result : Nat) : List Nat :=
  [t, fl] ++ le16 length ++ le32 result

/-- `ClientConnectionRequestPDU.Serialize` as invoked by `X224.Connect`
from the x224 package: the cookie is the constant string
"Cookie: mstshash=test", the negotiation block has type TYPE_RDP_NEG_REQ
(0x01), flag 0, length 8 and the requested-protocol mask as result, and is
present only when the requested protocol is above PROTOCOL_RDP (0). -/
def x224ConnectPayload (requestedProtocol : Nat) : List Nat :=
  let cookie := strBytes "Cookie: mstshash=test"
  let len := 6 + (cookie.length + 2) +
    (if 0 < requestedProtocol then 8 else 0)
  [len % 256, 0xE0, 0, 0, 0, 0, 0] ++ cookie ++ [0x0D, 0x0A] ++
    (if 0 < requestedProtocol then
      negotiationSerialize 1 0 8 requestedProtocol
    else [])

/-- The tail of `X224.recvConnectionConfirm` from the x224 package, after a
protocol has been selected: HYBRID_EX (8) is refused, otherwise the data
listener is installed and the selected protocol determines whether TLS or
NLA is started before the connect event. -/
def x224AfterConfirm (sel : Nat) : Nat × List X224Action :=
  if sel = 8 then (sel, [])
  else if sel = 0 then (sel, [X224Action.listenData, X224Action.emitConnect 0])
  else if sel = 1 then
    (sel, [X224Action.listenData, X224Action.startTLS, X224Action.emitConnect 1])
  else if sel = 2 then
    (sel, [X224Action.listenData, X224Action.startNLA, X224Action.emitConnect 2])
  else (sel, [X224Action.listenData])

/-- `X224.recvConnectionConfirm` from the x224 package, over the current
selected protocol and the received bytes: when the length byte exceeds 6
the confirm is unpacked (15 bytes: header, then the negotiation block with
its little-endian result); negotiation type 0x03 logs and closes the
transport, type 0x02 selects the result; otherwise the selected protocol
defaults to PROTOCOL_RDP.  Returns the new selected protocol and the
emitted actions. -/
def x224RecvConnectionConfirm (selectedProtocol : Nat) (s : List Nat) :
    Nat × List X224Action :=
  let ln := s.getD 0 0
  if 6 < ln then
    if s.length < 15 then (selectedProtocol, [])
    else
      let t := s.getD 7 0
      let result := s.getD 11 0 + s.getD 12 0 * 256 +
        s.getD 13 0 * 65536 + s.getD 14 0 * 16777216
      if t = 3 then (selectedProtocol, [X224Action.close])
      else
        x224AfterConfirm (if t = 2 then result else selectedProtocol)
  else x224AfterConfirm 0

/-! Concrete sample data used by witnesses and counterexamples. -/

/-- A Connection-Confirm byte sequence carrying a negotiation block of type
0x03 (failure) with result 0x02 (SSL_NOT_ALLOWED_BY_SERVER). -/
def negFailureConfirmBytes : List Nat :=
  [14, 0xD0, 0, 0, 0, 0, 0, 3, 0, 8, 0, 2, 0, 0, 0]

/-- A security state with encryption disabled. -/
def secStateOff : SecState := ⟨false, false, 0, 0, [], [], none, none, []⟩

/-- A security state with encryption enabled and concrete keys. -/
def secStateOn : SecState :=
  ⟨true, false, 0, 0, List.replicate 16 0xAA, List.replicate 16 0xAA,
   none, none, List.replicate 16 0x55⟩

/-- Naive substring search on byte lists: does `pat` occur contiguously in
`s`? -/
def listContainsSub (pat s : List Nat) : Bool :=
  (List.range (s.length + 1)).any (fun i => (s.drop i).take pat.length == pat)

end Grdp

namespace Grdp

/-! Helper length lemmas. -/

/-- A little-endian 32-bit serialization is 4 bytes. -/
theorem le32_length (n : Nat) : (le32 n).length = 4 := rfl

/-- An MD5 digest is 16 bytes. -/
theorem md5Hash_length (m : List Nat) : (md5Hash m).length = 16 := by
  simp [md5Hash, le32]

/-- A salted hash is 16 bytes. -/
theorem saltedHash_length (a b c d : List Nat) :
    (saltedHash a b c d).length = 16 := by
  simp [saltedHash, md5Hash_length]

/-- A session-key blob is 48 bytes. -/
theorem sessionKeyBlob_length (a b c : List Nat) :
    (sessionKeyBlob a b c).length = 48 := by
  simp [sessionKeyBlob, saltedHash_length]

/-- A final hash is 16 bytes. -/
theorem finalHash_length (a b c : List Nat) :
    (finalHash a b c).length = 16 := by
  simp [finalHash, md5Hash_length]

/-- `gen40bits` of a 16-byte key is 8 bytes. -/
theorem gen40bits_length (l : List Nat) (h : l.length = 16) :
    (gen40bits l).length = 8 := by
  simp [gen40bits, h]

/-! Claim theorems. -/

/-- C5: for every byte sequence `p`, `TPKT.Write p` sends exactly the bytes
0x03, 0x00, the big-endian 16-bit value `len(p)+4`, followed by `p`; in
particular payload `[0x01, 0x02]` yields `03 00 00 06 01 02`. -/
theorem tpktWrite_format :
    (∀ p : List Nat,
      tpktWrite p = 3 :: 0 :: (be16 ((p.length + 4) % 65536) ++ p)) ∧
    tpktWrite [1, 2] = [3, 0, 0, 6, 1, 2] := by
  exact ⟨fun p => rfl, by decide⟩

/-- C7: the X.224 data send path prepends exactly the 3-byte header
`02 F0 80`, the receive path strips exactly 3 bytes, and stripping the
receive header from a sent data frame returns the original payload. -/
theorem x224_data_roundtrip :
    (∀ b : List Nat, x224Write b = 0x02 :: 0xF0 :: 0x80 :: b) ∧
    (∀ s : List Nat, x224RecvData s = s.drop 3) ∧
    (∀ b : List Nat, x224RecvData (x224Write b) = b) :=
  ⟨fun _ => rfl, fun _ => rfl, fun _ => rfl⟩

/-- C10: when encryption is disabled, the security layer is the identity in
both directions: `SEC.Write` passes the bytes to the transport unchanged and
`decrytData` returns them unchanged, without touching the state. -/
theorem sec_disabled_identity (s : SecState) (b : List Nat)
    (h : s.enableEncryption = false) :
    secWrite s b = (s, b) ∧ decrytData s b = (s, b) := by
  simp [secWrite, decrytData, h]

/-- Witness for `sec_disabled_identity` at a concrete state and payload. -/
theorem sec_disabled_identity_witness :
    secStateOff.enableEncryption = false ∧
    (secWrite secStateOff [5, 6] = (secStateOff, [5, 6]) ∧
     decrytData secStateOff [5, 6] = (secStateOff, [5, 6])) :=
  ⟨rfl, sec_disabled_identity secStateOff [5, 6] rfl⟩

/-- C3 (code bug): iterating `writeEncryptedPayload` never changes the
encryption key and never resets the packet counter — the 4096-packet
key-update branch of the source is empty, so the counter passes 4096 and
the same RC4 key stream stays in use. -/
theorem writeEncryptedPayload_never_rekeys (s : SecState) (b : List Nat)
    (n : Nat) :
    (secWriteN s b n).currentEncryptKey = s.currentEncryptKey ∧
    (secWriteN s b n).nbEncryptedPacket = s.nbEncryptedPacket + n := by
  induction n with
  | zero => simp [secWriteN]
  | succ k ih =>
    refine ⟨?_, ?_⟩ <;>
      simp [secWriteN, writeEncryptedPayload, ih.1, ih.2, Nat.add_assoc]

/-- C4 (counterexample): on a Connection-Confirm carrying a negotiation
block of type 0x03 with result 0x02 (SSL_NOT_ALLOWED_BY_SERVER), the
handler's action trace is exactly a transport close — no error event is
emitted. -/
theorem recvConnectionConfirm_failure_counterexample :
    (x224RecvConnectionConfirm 1 negFailureConfirmBytes).2 =
      [X224Action.close] ∧
    X224Action.emitError ∉ (x224RecvConnectionConfirm 1 negFailureConfirmBytes).2 := by
  decide

/-- C4 (amended): for every received Connection-Confirm whose negotiation
block has type 0x03, whatever the failure result code, the handler closes
the transport and emits nothing else — in particular no error event. -/
theorem recvConnectionConfirm_failure_closes (st : Nat) (s : List Nat)
    (h1 : 6 < s.getD 0 0) (h2 : 15 ≤ s.length) (h3 : s.getD 7 0 = 3) :
    (x224RecvConnectionConfirm st s).2 = [X224Action.close] := by
  have h4 : ¬ s.length < 15 := by omega
  simp only [x224RecvConnectionConfirm]
  rw [if_pos h1, if_neg h4, if_pos h3]

/-- Witness for `recvConnectionConfirm_failure_closes` at the concrete
failure confirm bytes. -/
theorem recvConnectionConfirm_failure_closes_witness :
    6 < negFailureConfirmBytes.getD 0 0 ∧ 15 ≤ negFailureConfirmBytes.length ∧
    negFailureConfirmBytes.getD 7 0 = 3 ∧
    (x224RecvConnectionConfirm 5 negFailureConfirmBytes).2 = [X224Action.close] :=
  ⟨by decide, by decide, by decide,
   recvConnectionConfirm_failure_closes 5 negFailureConfirmBytes
     (by decide) (by decide) (by decide)⟩

set_option maxRecDepth 8192 in
/-- C6: for a fast-path first byte (low two bits zero), bits 6-7 are the
security flags; a length byte with the high bit set defers to the extended
header, whose payload size is the 15-bit value `low7(b1) * 256 + b2` minus
the 3 header bytes, while a length byte without the high bit yields a
payload of that 7-bit length minus the 2 header bytes. -/
theorem tpkt_fastpath_header_parse (b0 b1 b2 : Nat)
    (h0 : b0 % 4 = 0) (h1 : b1 < 256) :
    tpktRecvHeader b0 b1 =
      (if b1 &&& 0x80 ≠ 0 then
        RecvDecision.fpExtendedWait ((b0 >>> 6) &&& 3) b1
      else RecvDecision.fpShort ((b0 >>> 6) &&& 3) ((b1 : Int) - 2)) ∧
    tpktRecvExtendedFastPathHeader b1 b2 =
      ((b1 % 128 * 256 + b2 : Nat) : Int) - 3 := by
  have hne : b0 ≠ 3 := by omega
  have hlow : ∀ b : Nat, b < 256 → b - (b &&& 128) = b % 128 := by decide
  constructor
  · simp [tpktRecvHeader, hne]
  · simp only [tpktRecvExtendedFastPathHeader, hlow b1 h1, Nat.shiftLeft_eq]
    push_cast
    ring

/-- Witness for `tpkt_fastpath_header_parse` at first byte 0x84, length
byte 0x81 (extended form) and extra byte 0x0A. -/
theorem tpkt_fastpath_header_parse_witness :
    132 % 4 = 0 ∧ 129 < 256 ∧
    (tpktRecvHeader 132 129 =
      (if 129 &&& 0x80 ≠ 0 then
        RecvDecision.fpExtendedWait ((132 >>> 6) &&& 3) 129
      else RecvDecision.fpShort ((132 >>> 6) &&& 3) ((129 : Int) - 2)) ∧
     tpktRecvExtendedFastPathHeader 129 10 =
      ((129 % 128 * 256 + 10 : Nat) : Int) - 3) :=
  ⟨by decide, by decide,
   tpkt_fastpath_header_parse 132 129 10 (by decide) (by decide)⟩

/-- C8 (counterexample): the Connection-Request payload emitted by
`X224.Connect` (requested protocols SSL and HYBRID, as set by the callers)
carries the fixed routing cookie "Cookie: mstshash=test"; for a session
whose user name is "alice" it does not contain "Cookie: mstshash=alice". -/
theorem x224Connect_cookie_counterexample :
    listContainsSub (strBytes "Cookie: mstshash=test")
      (x224ConnectPayload 3) = true ∧
    listContainsSub (strBytes "Cookie: mstshash=alice")
      (x224ConnectPayload 3) = false := by
  decide

/-- C8 (amended): `X224.Connect` emits a Connection-Request TPDU of type
0xE0 whose payload contains the fixed routing cookie
"Cookie: mstshash=test" (the session user name is not used) terminated by
CR LF and, whenever the requested-protocol mask is above RDP, an 8-byte
RDP-Negotiation-Request block with type 0x01, flags 0x00, length 0x0008
and the requested-protocol mask in little-endian order. -/
theorem x224Connect_payload_format (p : Nat) :
    x224ConnectPayload p =
      [if 0 < p then 37 else 29, 0xE0, 0, 0, 0, 0, 0] ++
      strBytes "Cookie: mstshash=test" ++ [0x0D, 0x0A] ++
      (if 0 < p then [0x01, 0x00, 0x08, 0x00] ++ le32 p else []) := by
  by_cases h : 0 < p <;>
    simp [x224ConnectPayload, negotiationSerialize, strBytes, le16, h]

/-- C9: standard RDP encryption is activated exactly when the
server-selected protocol is RDP (0); only then is the 32-byte client random
generated — exactly once in the connect step — and sent RSA-encrypted
(byte-reversed around the RSA operation) as an EXCHANGE_PKT. -/
theorem clientConnect_encryption_iff (proto : Nat) (randf : Nat → List Nat)
    (rsaEncrypt : List Nat → List Nat) (serverRandom : List Nat)
    (method : Nat) (info : List Nat)
    (hr : ∀ n, (randf n).length = n) :
    ((clientConnectTrace proto randf rsaEncrypt serverRandom method info).1 =
        true ↔ proto = 0) ∧
    ((clientConnectTrace proto randf rsaEncrypt serverRandom method
        info).2.filter SecAction.isGenRandom =
      if proto = 0 then [SecAction.genRandom 32] else []) ∧
    (randf 32).length = 32 ∧
    ((clientConnectTrace proto randf rsaEncrypt serverRandom method
        info).2.filter SecAction.isExchangeSend =
      if proto = 0 then
        [SecAction.sendFlagged EXCHANGE_PKT
          (clientSecurityExchangeSerialize
            ((rsaEncrypt (randf 32).reverse).reverse))]
      else []) := by
  by_cases h : proto = 0 <;>
    simp [clientConnectTrace, sendClientRandomTrace, sendInfoPktTrace,
      SecAction.isGenRandom, SecAction.isExchangeSend, EXCHANGE_PKT,
      INFO_PKT, ENCRYPT, h, hr]

/-- Witness for `clientConnect_encryption_iff` with concrete entropy and
identity RSA at server-selected protocol 0. -/
theorem clientConnect_encryption_iff_witness :
    (∀ n, ((fun k => List.replicate k 0) n).length = n) ∧
    (((clientConnectTrace 0 (fun k => List.replicate k 0) id
        (List.replicate 32 1) 2 []).1 = true ↔ (0 : Nat) = 0) ∧
     ((clientConnectTrace 0 (fun k => List.replicate k 0) id
        (List.replicate 32 1) 2 []).2.filter SecAction.isGenRandom =
       if (0 : Nat) = 0 then [SecAction.genRandom 32] else []) ∧
     ((fun k => List.replicate k 0) 32).length = 32 ∧
     ((clientConnectTrace 0 (fun k => List.replicate k 0) id
        (List.replicate 32 1) 2 []).2.filter SecAction.isExchangeSend =
       if (0 : Nat) = 0 then
         [SecAction.sendFlagged EXCHANGE_PKT
           (clientSecurityExchangeSerialize
             ((id ((fun k => List.replicate k 0) 32).reverse).reverse))]
       else [])) :=
  ⟨fun n => by simp,
   clientConnect_encryption_iff 0 (fun k => List.replicate k 0) id
     (List.replicate 32 1) 2 [] (fun n => by simp)⟩

/-- The spec-side mac key is 16 bytes. -/
theorem specMacKey_length (cr sr : List Nat) :
    (specMacKey cr sr).length = 16 := by
  simp [specMacKey, specSessionBlob, sessionKeyBlob_length]

/-- The spec-side decrypt key is 16 bytes. -/
theorem specDecryptKey_length (cr sr : List Nat) :
    (specDecryptKey cr sr).length = 16 := by
  simp [specDecryptKey, md5Hash_length]

/-- The spec-side encrypt key is 16 bytes. -/
theorem specEncryptKey_length (cr sr : List Nat) :
    (specEncryptKey cr sr).length = 16 := by
  simp [specEncryptKey, md5Hash_length]

/-- C1 (counterexample): for the 40-bit encryption method the first derived
key (the mac key) is 8 bytes long, not a 16-byte key as the claim states. -/
theorem generateKeys_40bit_not_16_byte_keys :
    ((generateKeys (List.replicate 32 0) (List.replicate 32 1)
        ENCRYPTION_FLAG_40BIT).1).length = 8 ∧
    ((generateKeys (List.replicate 32 0) (List.replicate 32 1)
        ENCRYPTION_FLAG_40BIT).1).length ≠ 16 := by
  have h : ((generateKeys (List.replicate 32 0) (List.replicate 32 1)
      ENCRYPTION_FLAG_40BIT).1).length = 8 := by
    simp only [generateKeys, if_pos rfl]
    apply gen40bits_length
    simp [sessionKeyBlob_length]
  exact ⟨h, by omega⟩

/-- C1 (amended): for 32-byte randoms, `generateKeys` returns
(`mac_key = session[0:16]`,
`decrypt_key = MD5(session[16:32] || client_random || server_random)`,
`encrypt_key = MD5(session[32:48] || client_random || server_random)`)
for the 128-bit method; for the 40-bit method each key is the 8-byte value
obtained from the corresponding 16-byte key by replacing its first three
bytes with d1 26 9e and truncating to 8 bytes, and for the 56-bit method
the 8-byte value obtained by replacing the first byte with d1 and
truncating to 8 bytes. -/
theorem generateKeys_spec (cr sr : List Nat)
    (hc : cr.length = 32) (hs : sr.length = 32) :
    generateKeys cr sr ENCRYPTION_FLAG_128BIT =
      (specMacKey cr sr, specDecryptKey cr sr, specEncryptKey cr sr) ∧
    generateKeys cr sr ENCRYPTION_FLAG_40BIT =
      ([0xd1, 0x26, 0x9e] ++ ((specMacKey cr sr).drop 3).take 5,
       [0xd1, 0x26, 0x9e] ++ ((specDecryptKey cr sr).drop 3).take 5,
       [0xd1, 0x26, 0x9e] ++ ((specEncryptKey cr sr).drop 3).take 5) ∧
    generateKeys cr sr ENCRYPTION_FLAG_56BIT =
      ([0xd1] ++ ((specMacKey cr sr).drop 1).take 7,
       [0xd1] ++ ((specDecryptKey cr sr).drop 1).take 7,
       [0xd1] ++ ((specEncryptKey cr sr).drop 1).take 7) ∧
    ((generateKeys cr sr ENCRYPTION_FLAG_40BIT).1.length = 8 ∧
     (generateKeys cr sr ENCRYPTION_FLAG_40BIT).2.1.length = 8 ∧
     (generateKeys cr sr ENCRYPTION_FLAG_40BIT).2.2.length = 8) ∧
    ((generateKeys cr sr ENCRYPTION_FLAG_56BIT).1.length = 8 ∧
     (generateKeys cr sr ENCRYPTION_FLAG_56BIT).2.1.length = 8 ∧
     (generateKeys cr sr ENCRYPTION_FLAG_56BIT).2.2.length = 8) := by
  have h128 : generateKeys cr sr ENCRYPTION_FLAG_128BIT =
      (specMacKey cr sr, specDecryptKey cr sr, specEncryptKey cr sr) := by
    simp [generateKeys, ENCRYPTION_FLAG_128BIT, ENCRYPTION_FLAG_40BIT,
      ENCRYPTION_FLAG_56BIT, specMacKey, specDecryptKey, specEncryptKey,
      specSessionBlob, finalHash]
  have h40 : generateKeys cr sr ENCRYPTION_FLAG_40BIT =
      ([0xd1, 0x26, 0x9e] ++ ((specMacKey cr sr).drop 3).take 5,
       [0xd1, 0x26, 0x9e] ++ ((specDecryptKey cr sr).drop 3).take 5,
       [0xd1, 0x26, 0x9e] ++ ((specEncryptKey cr sr).drop 3).take 5) := by
    simp [generateKeys, ENCRYPTION_FLAG_40BIT, gen40bits, specMacKey,
      specDecryptKey, specEncryptKey, specSessionBlob, finalHash]
  have h56 : generateKeys cr sr ENCRYPTION_FLAG_56BIT =
      ([0xd1] ++ ((specMacKey cr sr).drop 1).take 7,
       [0xd1] ++ ((specDecryptKey cr sr).drop 1).take 7,
       [0xd1] ++ ((specEncryptKey cr sr).drop 1).take 7) := by
    simp [generateKeys, ENCRYPTION_FLAG_56BIT, ENCRYPTION_FLAG_40BIT,
      gen56bits, specMacKey, specDecryptKey, specEncryptKey,
      specSessionBlob, finalHash]
  refine ⟨h128, h40, h56, ?_, ?_⟩
  · rw [h40]
    simp [specMacKey_length, specDecryptKey_length, specEncryptKey_length]
  · rw [h56]
    simp [specMacKey_length, specDecryptKey_length, specEncryptKey_length]

/-- Witness for `generateKeys_spec` at the all-zero client random and
all-one server random. -/
theorem generateKeys_spec_witness :
    (List.replicate 32 (0 : Nat)).length = 32 ∧
    (List.replicate 32 (1 : Nat)).length = 32 ∧
    generateKeys (List.replicate 32 0) (List.replicate 32 1)
        ENCRYPTION_FLAG_128BIT =
      (specMacKey (List.replicate 32 0) (List.replicate 32 1),
       specDecryptKey (List.replicate 32 0) (List.replicate 32 1),
       specEncryptKey (List.replicate 32 0) (List.replicate 32 1)) :=
  ⟨by simp, by simp,
   (generateKeys_spec (List.replicate 32 0) (List.replicate 32 1)
     (by simp) (by simp)).1⟩

/-- C2: an ENCRYPT-flagged PDU (without SECURE_CHECKSUM) is emitted as the
2-byte little-endian flag word, a zero 2-byte flagHi, the first 8 bytes of
MD5(mac_key || 0x5c×48 || SHA1(mac_key || 0x36×40 || len_le32 ||
plaintext)), then the RC4 encryption of the plaintext under the current
encrypt key stream. -/
theorem encryt_encrypted_packet_format (s : SecState) (flag : Nat)
    (b : List Nat) (henc : flag &&& ENCRYPT ≠ 0)
    (hcs : flag &&& SECURE_CHECKSUM = 0) :
    (encryt s flag b).2 =
      le16 flag ++ le16 0 ++
      ((md5Hash (s.macKey ++ List.replicate 48 0x5c ++
        sha1Hash (s.macKey ++ List.replicate 40 0x36 ++
          le32 (b.length % 4294967296) ++ b))).take 8 ++
      (rc4Xor (currentEncCipher s) b).2) := by
  have hcs2 : ¬ flag &&& SECURE_CHECKSUM ≠ 0 := by simp [hcs]
  simp [encryt, writeEncryptedPayload, macData, henc, hcs2, currentEncCipher]

/-- Witness for `encryt_encrypted_packet_format` at a concrete state, the
plain ENCRYPT flag and a 2-byte plaintext. -/
theorem encryt_encrypted_packet_format_witness :
    (8 &&& ENCRYPT ≠ 0) ∧ (8 &&& SECURE_CHECKSUM = 0) ∧
    (encryt secStateOn 8 [1, 2]).2 =
      le16 8 ++ le16 0 ++
      ((md5Hash (secStateOn.macKey ++ List.replicate 48 0x5c ++
        sha1Hash (secStateOn.macKey ++ List.replicate 40 0x36 ++
          le32 (([1, 2] : List Nat).length % 4294967296) ++ [1, 2]))).take 8 ++
      (rc4Xor (currentEncCipher secStateOn) [1, 2]).2) :=
  ⟨by decide, by decide,
   encryt_encrypted_packet_format secStateOn 8 [1, 2] (by decide) (by decide)⟩

end Grdp

